import Mathlib

/-!
Verification of the local-db hook and its store registry.

The repository has two source files, both variants of the `useLocalDb`
hook (`src/src/app/use-local-db.ts` and `src/unnamed/part_000`).  The
hook code (its `setValue` closure, `validateWithSchema`, the
`defaultIsEqual` comparator and the subscribe wiring) is embedded
directly from the source.  The store registry module
(`./components/store-registry`, providing `getStore` and the `Store`
internals `hydrate` and `Store.setValue`) is imported by the hook but
is not part of the repository sources; those parts are modelled from
the specification and are marked as such in their doc comments.
-/

/- ### A model of JavaScript runtime values, for the comparator code -/

/-- JavaScript runtime values as seen by `defaultIsEqual`: null,
undefined, the primitives the comparator can branch on, and objects.
An object carries a reference identifier (modelling JavaScript
reference identity for the strict-equality operator) and its fields. -/
inductive JSVal where
  | vnull : JSVal
  | vundef : JSVal
  | vbool (b : Bool) : JSVal
  | vnum (n : Int) : JSVal
  | vstr (s : String) : JSVal
  | vobj (ref : Nat) (fields : List (String × JSVal)) : JSVal

/-- JavaScript strict equality `a === b`: same-constructor value
equality on primitives, reference identity on objects, false across
constructors (in particular `null === undefined` is false). -/
def strictEq : JSVal → JSVal → Bool
  | .vnull, .vnull => true
  | .vundef, .vundef => true
  | .vbool a, .vbool b => a == b
  | .vnum a, .vnum b => a == b
  | .vstr a, .vstr b => a == b
  | .vobj r _, .vobj t _ => r == t
  | _, _ => false

/-- JavaScript truthiness: null, undefined, false, 0 and the empty
string are falsy; objects are always truthy. -/
def truthy : JSVal → Bool
  | .vnull => false
  | .vundef => false
  | .vbool b => b
  | .vnum n => n != 0
  | .vstr s => s != ""
  | .vobj _ _ => true

/-- Whether `typeof x === "object"` holds in JavaScript.  Note that
`typeof null` is the string `"object"`. -/
def typeofIsObject : JSVal → Bool
  | .vnull => true
  | .vobj _ _ => true
  | _ => false

/-- The value is null or undefined (a missing value). -/
def isMissing : JSVal → Bool
  | .vnull => true
  | .vundef => true
  | _ => false

/-- The value is an actual object (not null, not undefined, not a
primitive). -/
def isObjVal : JSVal → Bool
  | .vobj _ _ => true
  | _ => false

/-- `defaultIsEqual` from `src/unnamed/part_000` lines 20 to 25.  The
deep structural comparator (the external package `fast-deep-equal`,
outside this repository) is passed in as the parameter `deepEqual`:

  if (a === b) return true;
  if (!a || !b) return false;
  if (typeof a !== "object" || typeof b !== "object") return false;
  return deepEqual(a, b);
-/
def defaultIsEqual (deepEqual : JSVal → JSVal → Bool) (a b : JSVal) : Bool :=
  if strictEq a b then true
  else if !truthy a || !truthy b then false
  else if !typeofIsObject a || !typeofIsObject b then false
  else deepEqual a b

/-- Instrumentation: `defaultIsEqual` reaches its final line, invoking
the deep comparator, exactly when all three guards fall through. -/
def deepEqualInvoked (a b : JSVal) : Bool :=
  !strictEq a b && (truthy a && truthy b) && (typeofIsObject a && typeofIsObject b)

lemma truthy_typeofIsObject_isObjVal (x : JSVal) (h1 : truthy x = true)
    (h2 : typeofIsObject x = true) : isObjVal x = true := by
  cases x <;> simp_all [truthy, typeofIsObject, isObjVal]

lemma defaultIsEqual_invoked_eq (deepEqual : JSVal → JSVal → Bool) (a b : JSVal)
    (h : deepEqualInvoked a b = true) : defaultIsEqual deepEqual a b = deepEqual a b := by
  simp only [deepEqualInvoked, Bool.and_eq_true, Bool.not_eq_true'] at h
  simp [defaultIsEqual, h.1.1, h.1.2.1, h.1.2.2, h.2.1, h.2.2]

lemma defaultIsEqual_not_invoked (deepEqual deepEqual2 : JSVal → JSVal → Bool)
    (a b : JSVal) (h : deepEqualInvoked a b = false) :
    defaultIsEqual deepEqual a b = defaultIsEqual deepEqual2 a b := by
  unfold defaultIsEqual
  split
  · rfl
  · split
    · rfl
    · split
      · rfl
      · exfalso
        rename_i h1 h2 h3
        simp only [Bool.not_eq_true', Bool.or_eq_true, Bool.not_eq_true,
          Bool.not_eq_false, not_or] at h1 h2 h3
        simp [deepEqualInvoked, h1, h2.1, h2.2, h3.1, h3.2] at h

/- ### The Store data model and the registry -/

/-- Hydration state of a store, from the spec (section 3): governs the
idempotent hydrate protocol. -/
inductive HydrationState where
  | notStarted : HydrationState
  | inFlight : HydrationState
  | done : HydrationState
deriving DecidableEq

/-- The value cell of a store: unresolved until the first hydration
completes; afterwards an explicit value, where `stored none` is the
null tombstone and `stored (some v)` a payload. -/
inductive StoreVal (T : Type) where
  | unresolved : StoreVal T
  | stored (v : Option T) : StoreVal T
deriving DecidableEq

/-- Modelled from the spec: the Store record of section 3 (the module
`./components/store-registry` that declares it is not among the
repository sources).  `value`, `listeners`, `isValid`, `isEqual`,
`repairTo` and `hydrationState` are the fields the spec lists;
listeners are identified by natural numbers.  Three observation fields
record the externally visible effects the claims speak about:
`readCount` counts Backing Adapter reads issued, `writeLog` records
Backing Adapter writes in order, and `notifyCount` counts listener
invocations. -/
structure Store (T : Type) where
  value : StoreVal T
  listeners : Finset Nat
  isValid : Option T → Bool
  isEqual : StoreVal T → Option T → Bool
  repairTo : Option T
  hydrationState : HydrationState
  readCount : Nat
  writeLog : List (Option T)
  notifyCount : Nat

/-- The optional namespace argument of the hook: dbName and storeName,
each possibly absent. -/
structure DbNamespace where
  dbName : Option String
  storeName : Option String
deriving DecidableEq

/-- A store identity, from the spec (section 3): the composite
(namespace.dbName, namespace.storeName, key); two identities are equal
iff all three components are equal (derived decidable equality). -/
structure StoreIdentity where
  dbName : Option String
  storeName : Option String
  key : String
deriving DecidableEq

/-- The registry map from identities to stores; absent identities map
to `none`. -/
def Registry (T : Type) := StoreIdentity → Option (Store T)

/-- Modelled from the spec: construction of a fresh store on first
lookup, section 4.1: hydrationState is NotStarted, value is
unresolved, repairTo is the initial value, and the supplied predicates
are pinned.  No effect has happened yet. -/
def newStore {T : Type} (initialValue : Option T) (isValid : Option T → Bool)
    (isEqual : StoreVal T → Option T → Bool) : Store T :=
  { value := .unresolved
    listeners := ∅
    isValid := isValid
    isEqual := isEqual
    repairTo := initialValue
    hydrationState := .notStarted
    readCount := 0
    writeLog := []
    notifyCount := 0 }

/-- Modelled from the spec: `getStore` of the store registry, section
4.1 (`./components/store-registry` is not among the repository
sources).  Looks up by store identity; if absent, constructs a new
store, inserts it and returns it; if present, returns the existing
store unchanged, silently discarding the newly supplied initial value
and predicates.  Returns the updated registry together with the
store. -/
def getStore {T : Type} (reg : Registry T) (key : String) (initialValue : Option T)
    (isValid : Option T → Bool) (isEqual : StoreVal T → Option T → Bool)
    (ns : DbNamespace) : Registry T × Store T :=
  let i : StoreIdentity := ⟨ns.dbName, ns.storeName, key⟩
  match reg i with
  | some s => (reg, s)
  | none =>
      let s := newStore initialValue isValid isEqual
      (fun j => if j = i then some s else reg j, s)

/-- Modelled from the spec: the write path of the Store itself,
section 4.3 (`./components/store-registry` is not among the repository
sources).  Given the possibly substituted value, the store updates
`value` synchronously, notifies every current listener synchronously,
and persists the new value to the Backing Adapter (recorded in
`writeLog`). -/
def storeSetValue {T : Type} (st : Store T) (safe : Option T) : Store T :=
  { st with
    value := .stored safe
    notifyCount := st.notifyCount + st.listeners.card
    writeLog := st.writeLog ++ [safe] }

/-- Modelled from the spec: `hydrate` of the Store, section 4.2
(`./components/store-registry` is not among the repository sources).
If hydrationState is not NotStarted, return immediately; otherwise set
it to InFlight and issue the one asynchronous Backing Adapter read
(counted in `readCount`). -/
def hydrate {T : Type} (st : Store T) : Store T :=
  if st.hydrationState = .notStarted then
    { st with hydrationState := .inFlight, readCount := st.readCount + 1 }
  else st

/- ### The hook code, from the source -/

/-- `validateWithSchema` from `src/src/app/use-local-db.ts` lines 20
to 22 (identically `src/unnamed/part_000` lines 27 to 29).  The zod
schema is external and is embedded as the predicate it induces through
`safeParse(val).success`:

  return val === null ? true : schema.safeParse(val).success;
-/
def validateWithSchema {T : Type} (schema : T → Bool) (val : Option T) : Bool :=
  match val with
  | none => true
  | some v => schema v

/-- The `setValue` closure of the hook, `src/src/app/use-local-db.ts`
lines 45 to 53 (identically `src/unnamed/part_000` lines 49 to 57).
`isValidLocal` is the `isValid` callback of the invoking hook instance
(built from the schema that instance supplied); the equality check
uses the pinned `store.isEqual` and the pinned `store.repairTo`:

  if (store.isEqual(value, next)) return;
  const safe = isValid(next) ? next : (store.repairTo as T | null);
  store.setValue(safe);

The result is the updated store together with the value passed to
`store.setValue`, or `none` for it when `store.setValue` was not
invoked. -/
def setValue {T : Type} (st : Store T) (isValidLocal : Option T → Bool)
    (next : Option T) : Store T × Option (Option T) :=
  if st.isEqual st.value next then (st, none)
  else
    let safe := if isValidLocal next then next else st.repairTo
    (storeSetValue st safe, some safe)

/-- The subscribe function of the hook, `src/src/app/use-local-db.ts`
lines 33 to 39 (identically the first `useSyncExternalStore` argument
in `src/unnamed/part_000` lines 40 to 47): `store.listeners.add(listener)`. -/
def subscribe {T : Type} (st : Store T) (cb : Nat) : Store T :=
  { st with listeners := insert cb st.listeners }

/-- The unsubscribe closure returned by subscribe:
`store.listeners.delete(listener)`. -/
def unsubscribe {T : Type} (st : Store T) (cb : Nat) : Store T :=
  { st with listeners := st.listeners.erase cb }

/- ### Helper lemmas for the comparator claims -/

lemma isMissing_isObjVal (x : JSVal) (h : isMissing x = true) : isObjVal x = false := by
  cases x <;> simp_all [isMissing, isObjVal]

lemma isObjVal_isMissing (x : JSVal) (h : isObjVal x = true) : isMissing x = false := by
  cases x <;> simp_all [isMissing, isObjVal]

lemma deepEqualInvoked_isObjVal (a b : JSVal) (h : deepEqualInvoked a b = true) :
    isObjVal a = true ∧ isObjVal b = true := by
  simp only [deepEqualInvoked, Bool.and_eq_true] at h
  exact ⟨truthy_typeofIsObject_isObjVal a h.1.2.1 h.2.1,
         truthy_typeofIsObject_isObjVal b h.1.2.2 h.2.2⟩

/- ### Claims about the comparator -/

/-- C7: for every pair (a, b), `defaultIsEqual` first tests strict
equality and returns true when it holds; when strict equality fails
and either side is missing or either side is a non-object, it returns
false and the deep comparator is not consulted; the deep comparison is
reached only when both sides are objects. -/
theorem defaultIsEqual_short_circuit (deq : JSVal → JSVal → Bool) (a b : JSVal) :
    (strictEq a b = true → defaultIsEqual deq a b = true)
    ∧ (strictEq a b = false →
       (isMissing a || isMissing b || !isObjVal a || !isObjVal b) = true →
       defaultIsEqual deq a b = false ∧ deepEqualInvoked a b = false)
    ∧ (deepEqualInvoked a b = true → isObjVal a = true ∧ isObjVal b = true) := by
  refine ⟨?_, ?_, deepEqualInvoked_isObjVal a b⟩
  · intro h
    simp [defaultIsEqual, h]
  · intro hne hd
    have hno : ¬(isObjVal a = true ∧ isObjVal b = true) := by
      rintro ⟨ha, hb⟩
      simp only [Bool.or_eq_true, Bool.not_eq_true'] at hd
      rcases hd with ((hm | hm) | h1) | h1
      · exact absurd ha (by simp [isMissing_isObjVal a hm])
      · exact absurd hb (by simp [isMissing_isObjVal b hm])
      · exact absurd ha (by simp [h1])
      · exact absurd hb (by simp [h1])
    constructor
    · unfold defaultIsEqual
      rw [if_neg (by simp [hne])]
      split
      · rfl
      · split
        · rfl
        · rename_i h2 h3
          exfalso
          simp only [Bool.or_eq_true, Bool.not_eq_true', not_or, Bool.not_eq_false] at h2 h3
          exact hno ⟨truthy_typeofIsObject_isObjVal a h2.1 h3.1,
                     truthy_typeofIsObject_isObjVal b h2.2 h3.2⟩
    · cases hi : deepEqualInvoked a b
      · rfl
      · exact absurd (deepEqualInvoked_isObjVal a b hi) hno

/-- C7 witness: a number against null falls into the short-circuit
branch — the result is false and the deep comparator is not
consulted. -/
theorem defaultIsEqual_short_circuit_witness :
    strictEq (JSVal.vnum 1) JSVal.vnull = false
    ∧ (isMissing (JSVal.vnum 1) || isMissing JSVal.vnull
       || !isObjVal (JSVal.vnum 1) || !isObjVal JSVal.vnull) = true
    ∧ defaultIsEqual (fun _ _ => true) (JSVal.vnum 1) JSVal.vnull = false
    ∧ deepEqualInvoked (JSVal.vnum 1) JSVal.vnull = false :=
  ⟨by decide, by decide,
   ((defaultIsEqual_short_circuit (fun _ _ => true) (JSVal.vnum 1) JSVal.vnull).2.1
     (by decide) (by decide)).1,
   ((defaultIsEqual_short_circuit (fun _ _ => true) (JSVal.vnum 1) JSVal.vnull).2.1
     (by decide) (by decide)).2⟩

/-- C10: the deep structural comparator is invoked by `defaultIsEqual`
only when both arguments are objects (hence neither is null,
undefined, or a primitive); whenever it is not invoked the result is
independent of the deep comparator, being decided by the guards
alone. -/
theorem deepEqual_invoked_only_objects (a b : JSVal) :
    (deepEqualInvoked a b = true →
      isObjVal a = true ∧ isObjVal b = true
      ∧ isMissing a = false ∧ isMissing b = false)
    ∧ (deepEqualInvoked a b = false →
       ∀ d1 d2 : JSVal → JSVal → Bool, defaultIsEqual d1 a b = defaultIsEqual d2 a b) := by
  constructor
  · intro h
    obtain ⟨ha, hb⟩ := deepEqualInvoked_isObjVal a b h
    exact ⟨ha, hb, isObjVal_isMissing a ha, isObjVal_isMissing b hb⟩
  · intro h d1 d2
    exact defaultIsEqual_not_invoked d1 d2 a b h

/-- C10 witness: two distinct empty objects do reach the deep
comparator and both are objects; a number against a string does not,
and the result does not depend on the comparator. -/
theorem deepEqual_invoked_only_objects_witness :
    deepEqualInvoked (JSVal.vobj 0 []) (JSVal.vobj 1 []) = true
    ∧ isObjVal (JSVal.vobj 0 []) = true ∧ isObjVal (JSVal.vobj 1 []) = true
    ∧ isMissing (JSVal.vobj 0 []) = false ∧ isMissing (JSVal.vobj 1 []) = false
    ∧ deepEqualInvoked (JSVal.vnum 2) (JSVal.vstr "x") = false
    ∧ defaultIsEqual (fun _ _ => true) (JSVal.vnum 2) (JSVal.vstr "x")
       = defaultIsEqual (fun _ _ => false) (JSVal.vnum 2) (JSVal.vstr "x") :=
  ⟨by decide,
   ((deepEqual_invoked_only_objects (JSVal.vobj 0 []) (JSVal.vobj 1 [])).1 (by decide)).1,
   ((deepEqual_invoked_only_objects (JSVal.vobj 0 []) (JSVal.vobj 1 [])).1 (by decide)).2.1,
   ((deepEqual_invoked_only_objects (JSVal.vobj 0 []) (JSVal.vobj 1 [])).1 (by decide)).2.2.1,
   ((deepEqual_invoked_only_objects (JSVal.vobj 0 []) (JSVal.vobj 1 [])).1 (by decide)).2.2.2,
   by decide,
   (deepEqual_invoked_only_objects (JSVal.vnum 2) (JSVal.vstr "x")).2 (by decide)
     (fun _ _ => true) (fun _ _ => false)⟩

/- ### Concrete stores for witnesses and counterexamples -/

/-- A concrete store over Nat payloads, for evaluating the claims at
explicit inputs. -/
def mkStore (v : StoreVal Nat) (eqp : StoreVal Nat → Option Nat → Bool)
    (validp : Option Nat → Bool) (repair : Option Nat) (ls : Finset Nat)
    (hs : HydrationState) : Store Nat :=
  { value := v
    listeners := ls
    isValid := validp
    isEqual := eqp
    repairTo := repair
    hydrationState := hs
    readCount := 0
    writeLog := []
    notifyCount := 0 }

/-- An equality predicate that never holds (distinct payloads). -/
def eqNever : StoreVal Nat → Option Nat → Bool := fun _ _ => false

/-- An equality predicate that always holds. -/
def eqAlways : StoreVal Nat → Option Nat → Bool := fun _ _ => true

/-- A validator accepting every candidate. -/
def validAll : Option Nat → Bool := fun _ => true

/-- A validator rejecting every candidate. -/
def validNone : Option Nat → Bool := fun _ => false

/- ### Claims about the write path of the hook -/

/-- C2: every value the setValue closure forwards to `store.setValue`
(and hence to listeners) is null, or passes the applied validator, or
is the pinned repair fallback; nothing else is ever forwarded. -/
theorem setValue_forwards_valid_or_repair {T : Type} (st : Store T)
    (isValidLocal : Option T → Bool) (next w : Option T)
    (h : (setValue st isValidLocal next).2 = some w) :
    w = none ∨ isValidLocal w = true ∨ w = st.repairTo := by
  unfold setValue at h
  split at h
  · simp at h
  · simp only [Option.some.injEq] at h
    by_cases hv : isValidLocal next = true
    · rw [if_pos hv] at h
      exact Or.inr (Or.inl (h ▸ hv))
    · rw [if_neg hv] at h
      exact Or.inr (Or.inr h.symm)

/-- C2 witness: a valid candidate is forwarded unchanged and satisfies
the disjunction. -/
theorem setValue_forwards_valid_or_repair_witness :
    (setValue (mkStore (.stored (some 1)) eqNever validAll (some 7) ∅ .done)
       validAll (some 3)).2 = some (some 3)
    ∧ (some 3 = (none : Option Nat) ∨ validAll (some 3) = true
       ∨ some 3 = (mkStore (.stored (some 1)) eqNever validAll (some 7) ∅ .done).repairTo) :=
  ⟨rfl, setValue_forwards_valid_or_repair
     (mkStore (.stored (some 1)) eqNever validAll (some 7) ∅ .done)
     validAll (some 3) (some 3) rfl⟩

/-- C3: when the applied validator rejects v and the equality check
does not suppress the write, the setValue closure forwards the pinned
repair fallback instead of v: the stored value becomes repairTo and
the record appended to the Backing Adapter write log is repairTo, not
v; the closure is a total function, so no exception reaches the
caller. -/
theorem setValue_invalid_repaired {T : Type} (st : Store T)
    (isValidLocal : Option T → Bool) (v : Option T)
    (hv : isValidLocal v = false) (hne : st.isEqual st.value v = false) :
    setValue st isValidLocal v = (storeSetValue st st.repairTo, some st.repairTo)
    ∧ (setValue st isValidLocal v).1.value = .stored st.repairTo
    ∧ (setValue st isValidLocal v).1.writeLog = st.writeLog ++ [st.repairTo] := by
  have h1 : setValue st isValidLocal v = (storeSetValue st st.repairTo, some st.repairTo) := by
    simp [setValue, hne, hv]
  exact ⟨h1, by rw [h1]; rfl, by rw [h1]; rfl⟩

/-- C3 witness: a rejected candidate 2 is replaced by the pinned
repair value 7 in both the cell and the write log. -/
theorem setValue_invalid_repaired_witness :
    validNone (some 2) = false
    ∧ (mkStore (.stored (some 1)) eqNever validAll (some 7) ∅ .done).isEqual
        (mkStore (.stored (some 1)) eqNever validAll (some 7) ∅ .done).value (some 2) = false
    ∧ (setValue (mkStore (.stored (some 1)) eqNever validAll (some 7) ∅ .done)
         validNone (some 2)).1.value
        = .stored (mkStore (.stored (some 1)) eqNever validAll (some 7) ∅ .done).repairTo
    ∧ (setValue (mkStore (.stored (some 1)) eqNever validAll (some 7) ∅ .done)
         validNone (some 2)).1.writeLog = [some 7] :=
  ⟨rfl, rfl,
   (setValue_invalid_repaired (mkStore (.stored (some 1)) eqNever validAll (some 7) ∅ .done)
      validNone (some 2) rfl rfl).2.1,
   (setValue_invalid_repaired (mkStore (.stored (some 1)) eqNever validAll (some 7) ∅ .done)
      validNone (some 2) rfl rfl).2.2⟩

/-- C4: when the pinned equality predicate relates the current value
to the candidate, the setValue closure is a complete no-op: it returns
early, `store.setValue` is not invoked, and the store (its value,
write log, notification count, everything) is unchanged. -/
theorem setValue_equal_noop {T : Type} (st : Store T)
    (isValidLocal : Option T → Bool) (next : Option T)
    (h : st.isEqual st.value next = true) :
    setValue st isValidLocal next = (st, none) := by
  simp [setValue, h]

/-- C4 witness: with an equality predicate that holds, the write is
fully suppressed and the store is returned unchanged. -/
theorem setValue_equal_noop_witness :
    (mkStore (.stored (some 1)) eqAlways validAll (some 7) ∅ .done).isEqual
      (mkStore (.stored (some 1)) eqAlways validAll (some 7) ∅ .done).value (some 9) = true
    ∧ setValue (mkStore (.stored (some 1)) eqAlways validAll (some 7) ∅ .done)
        validAll (some 9)
      = (mkStore (.stored (some 1)) eqAlways validAll (some 7) ∅ .done, none) :=
  ⟨rfl, setValue_equal_noop (mkStore (.stored (some 1)) eqAlways validAll (some 7) ∅ .done)
     validAll (some 9) rfl⟩

/-- C6: for every schema, `validateWithSchema` maps null to valid, so
a null write through the setValue closure (when not suppressed by the
equality check) forwards null itself, never the repair fallback,
regardless of the schema. -/
theorem validateWithSchema_null_valid {T : Type} (schema : T → Bool) (st : Store T)
    (h : st.isEqual st.value none = false) :
    validateWithSchema schema (none : Option T) = true
    ∧ (setValue st (validateWithSchema schema) none).2 = some none := by
  refine ⟨rfl, ?_⟩
  simp [setValue, h, validateWithSchema]

/-- C6 witness: even with a schema rejecting every payload, null is
valid and a null write is forwarded as null, not as the repair value 7. -/
theorem validateWithSchema_null_valid_witness :
    (mkStore (.stored (some 5)) eqNever validAll (some 7) ∅ .done).isEqual
      (mkStore (.stored (some 5)) eqNever validAll (some 7) ∅ .done).value none = false
    ∧ validateWithSchema (fun _ : Nat => false) (none : Option Nat) = true
    ∧ (setValue (mkStore (.stored (some 5)) eqNever validAll (some 7) ∅ .done)
         (validateWithSchema (fun _ : Nat => false)) none).2 = some none :=
  ⟨rfl,
   (validateWithSchema_null_valid (fun _ : Nat => false)
      (mkStore (.stored (some 5)) eqNever validAll (some 7) ∅ .done) rfl).1,
   (validateWithSchema_null_valid (fun _ : Nat => false)
      (mkStore (.stored (some 5)) eqNever validAll (some 7) ∅ .done) rfl).2⟩

/- ### C5: which predicates does the write path apply? -/

/-- A store created with an accept-all pinned validator; a later hook
instance for the same key supplies the reject-all validator
`validNone`. -/
def c5Store : Store Nat := mkStore (.stored (some 1)) eqNever validAll (some 0) ∅ .done

/-- C5 counterexample: the claim says later-supplied predicates are
ignored and the pinned ones are applied, i.e. running the setValue
closure with a later-supplied validator would agree with running it
with the pinned `store.isValid`.  At this concrete input they
disagree: the later-supplied reject-all validator makes the closure
forward the repair value 0, while the pinned accept-all validator
would forward the candidate 2.  The later-supplied validator is
applied, not ignored. -/
theorem setValue_pinned_validator_counterexample :
    (setValue c5Store validNone (some 2)).2 ≠ (setValue c5Store c5Store.isValid (some 2)).2 := by
  decide

/-- C5 (amended): the equality suppression does apply the pinned
`store.isEqual`, and on invalid candidates the pinned
`store.repairTo` is substituted; but the validation predicate applied
is the one supplied by the invoking hook instance — the pinned
`store.isValid` is never consulted by the write path (replacing it
changes nothing in the forwarded value). -/
theorem setValue_predicates_amended {T : Type} (st : Store T)
    (isValidLocal g : Option T → Bool) (next : Option T) :
    ((setValue { st with isValid := g } isValidLocal next).2
       = (setValue st isValidLocal next).2)
    ∧ ((setValue st isValidLocal next).2 = none ↔ st.isEqual st.value next = true)
    ∧ (st.isEqual st.value next = false →
       (setValue st isValidLocal next).2
         = some (if isValidLocal next then next else st.repairTo)) := by
  refine ⟨?_, ?_, ?_⟩
  · by_cases h : st.isEqual st.value next = true
    · simp [setValue, h]
    · simp only [Bool.not_eq_true] at h
      simp [setValue, h]
  · by_cases h : st.isEqual st.value next = true
    · simp [setValue, h]
    · simp only [Bool.not_eq_true] at h
      simp [setValue, h]
  · intro h
    simp [setValue, h]

/-- C5 witness: at a concrete unsuppressed write the forwarded value
is decided by the validator of the invoking hook instance. -/
theorem setValue_predicates_amended_witness :
    c5Store.isEqual c5Store.value (some 2) = false
    ∧ (setValue c5Store validNone (some 2)).2
       = some (if validNone (some 2) then some 2 else c5Store.repairTo) :=
  ⟨rfl, (setValue_predicates_amended c5Store validNone validAll (some 2)).2.2 rfl⟩

/- ### C1: the registry deduplicates stores per identity -/

/-- C1: two getStore calls with the same identity (same dbName,
storeName and key) return the identical store object, whatever initial
values and predicates the second call supplies, and the second call
leaves the registry unchanged; moreover after a getStore call the
registry maps the identity to exactly the returned store, so at most
one store exists per identity.  In the single-threaded event-loop
model of the spec, two calls in the same scheduling turn are two
sequential calls. -/
theorem getStore_dedup {T : Type} (reg : Registry T) (key : String) (ns : DbNamespace)
    (init1 init2 : Option T) (valid1 valid2 : Option T → Bool)
    (eq1 eq2 : StoreVal T → Option T → Bool) :
    (getStore (getStore reg key init1 valid1 eq1 ns).1 key init2 valid2 eq2 ns).2
      = (getStore reg key init1 valid1 eq1 ns).2
    ∧ (getStore (getStore reg key init1 valid1 eq1 ns).1 key init2 valid2 eq2 ns).1
      = (getStore reg key init1 valid1 eq1 ns).1
    ∧ (getStore reg key init1 valid1 eq1 ns).1 ⟨ns.dbName, ns.storeName, key⟩
      = some (getStore reg key init1 valid1 eq1 ns).2 := by
  unfold getStore
  cases h : reg ⟨ns.dbName, ns.storeName, key⟩ <;> simp [h]

/- ### C8: hydrate is idempotent -/

lemma hydrate_of_started {T : Type} (s : Store T)
    (h : s.hydrationState ≠ .notStarted) : hydrate s = s := by
  simp [hydrate, h]

lemma hydrate_iterate_fix {T : Type} (n : Nat) (s : Store T)
    (h : s.hydrationState ≠ .notStarted) : hydrate^[n] s = s := by
  induction n with
  | zero => rfl
  | succ n ih => rw [Function.iterate_succ_apply, hydrate_of_started s h]; exact ih

/-- C8: calling hydrate k times (k at least 1) on a store that has not
started hydrating issues exactly one Backing Adapter read; calling
hydrate on a store whose hydration is Done is a no-op; and calling it
while a hydration is InFlight issues no second read. -/
theorem hydrate_idempotent {T : Type} (st : Store T) (k : Nat) (hk : 1 ≤ k)
    (h0 : st.hydrationState = .notStarted) :
    (hydrate^[k] st).readCount = st.readCount + 1
    ∧ (∀ s : Store T, s.hydrationState = .done → hydrate s = s)
    ∧ (∀ s : Store T, s.hydrationState = .inFlight →
        (hydrate s).readCount = s.readCount ∧ hydrate s = s) := by
  refine ⟨?_, ?_, ?_⟩
  · obtain ⟨m, rfl⟩ : ∃ m, k = m + 1 := ⟨k - 1, (Nat.succ_pred_eq_of_pos hk).symm⟩
    rw [Function.iterate_succ_apply, hydrate]
    rw [if_pos h0]
    rw [hydrate_iterate_fix m _ (by simp)]
  · intro s hs
    simp [hydrate, hs]
  · intro s hs
    have : hydrate s = s := by simp [hydrate, hs]
    exact ⟨by rw [this], this⟩

/-- C8 witness: two hydrate calls on a fresh store issue exactly one
read. -/
theorem hydrate_idempotent_witness :
    1 ≤ 2
    ∧ (mkStore (.stored none) eqNever validAll none ∅ .notStarted).hydrationState
       = HydrationState.notStarted
    ∧ (hydrate^[2] (mkStore (.stored none) eqNever validAll none ∅ .notStarted)).readCount
       = (mkStore (.stored none) eqNever validAll none ∅ .notStarted).readCount + 1 :=
  ⟨by decide, rfl,
   (hydrate_idempotent (mkStore (.stored none) eqNever validAll none ∅ .notStarted)
      2 (by decide) rfl).1⟩

/- ### C9: subscribe and unsubscribe -/

/-- A concrete store that already has listener 0 attached. -/
def c9Store : Store Nat := mkStore (.stored none) eqNever validAll none {0} .done

/-- C9 counterexample: the round trip does not hold for every cb.  If
cb is already in the listener set, the add is absorbed (JavaScript Set
add is idempotent) and the delete then removes cb, leaving a set
different from the original. -/
theorem subscribe_roundtrip_counterexample :
    (unsubscribe (subscribe c9Store 0) 0).listeners ≠ c9Store.listeners := by
  decide

/-- C9 (amended): subscribe(cb) adds cb to the listener set and the
returned unsubscribe removes exactly cb (membership of every other
listener is untouched); the subscribe-then-unsubscribe round trip
restores the previous listener set provided cb was not already
subscribed — for an already-subscribed cb the round trip removes it. -/
theorem subscribe_unsubscribe_amended {T : Type} (st : Store T) (cb : Nat)
    (h : cb ∉ st.listeners) :
    cb ∈ (subscribe st cb).listeners
    ∧ (unsubscribe (subscribe st cb) cb).listeners = st.listeners
    ∧ (∀ d : Nat, d ≠ cb → ((d ∈ (unsubscribe st cb).listeners) ↔ d ∈ st.listeners)) := by
  refine ⟨Finset.mem_insert_self cb st.listeners, ?_, ?_⟩
  · show (insert cb st.listeners).erase cb = st.listeners
    exact Finset.erase_insert h
  · intro d hd
    simp [unsubscribe, Finset.mem_erase, hd]

/-- C9 witness: subscribing a fresh listener 1 and unsubscribing it
restores the original listener set. -/
theorem subscribe_unsubscribe_amended_witness :
    (1 : Nat) ∉ c9Store.listeners
    ∧ 1 ∈ (subscribe c9Store 1).listeners
    ∧ (unsubscribe (subscribe c9Store 1) 1).listeners = c9Store.listeners :=
  ⟨by decide,
   (subscribe_unsubscribe_amended c9Store 1 (by decide)).1,
   (subscribe_unsubscribe_amended c9Store 1 (by decide)).2.1⟩
